import Mathlib

set_option maxRecDepth 100000

/-!
# Verification of the Memoix ingredient-classification engine

Shallow embedding of `src/tools/build_ingredients_db.py`: the category
registry, the keyword rule tables, the two classifiers, the ingredient
filter and the row-processing pipeline of `build_database`, together with
proofs of the specified properties.

Strings are modelled as Lean `String`s; Python's substring operator
`kw in s` is modelled by `pyIn` below, operating on the underlying
character lists.
-/

/-- `isPrefixL kw s`: `kw` is a prefix of `s` (character lists). -/
def isPrefixL : List Char → List Char → Bool
  | [], _ => true
  | _ :: _, [] => false
  | a :: as, b :: bs => a == b && isPrefixL as bs

/-- `containsL kw s`: `kw` occurs as a contiguous substring of `s`
(the semantics of Python's `kw in s` on strings). -/
def containsL (kw : List Char) : List Char → Bool
  | [] => isPrefixL kw []
  | c :: t => isPrefixL kw (c :: t) || containsL kw t

/-- Python's `kw in s` for strings. -/
def pyIn (kw s : String) : Bool := containsL kw.data s.data

/-- The fixed, ordered category enumeration (`CATEGORIES` in the source). -/
def CATEGORIES : List String :=
  ["produce", "meat", "poultry", "seafood", "egg", "cheese", "dairy",
   "grain", "pasta", "legume", "nut", "spice", "condiment", "oil",
   "vinegar", "flour", "sugar", "leavening", "alcohol", "pop", "juice",
   "beverage", "unknown", "pantry"]

/-- `CAT = {cat: i for i, cat in enumerate(CATEGORIES)}` as an association
list from category name to ordinal. -/
def CAT : List (String × Nat) := CATEGORIES.enum.map (fun p => (p.2, p.1))

/-- `UNKNOWN = CAT["unknown"]`. -/
def UNKNOWN : Nat := ((CAT.lookup "unknown").getD 0)

/-- `CAT.get(cat, UNKNOWN)`: ordinal of `cat`, falling back to the
unknown ordinal for names not in the registry. -/
def catGet (c : String) : Nat := ((CAT.lookup c).getD UNKNOWN)

/-- The ordered keyword → category rule table (`KEYWORD_RULES` in the
source), transcribed entry for entry in source order, duplicates and the
`]`-prefixed keywords included. -/
def KEYWORD_RULES : List (List String × String) := [
  (["stock"],                 "pantry"),
  (["vegetable stock"],       "pantry"),
  (["chicken stock"],         "pantry"),
  (["beef stock"],            "pantry"),
  (["]chicken broth"],        "pantry"),
  (["]beef broth"],           "pantry"),
  (["]vegetable broth"],      "pantry"),
  (["bouillon"],              "pantry"),
  (["tomato sauce"],          "pantry"),
  (["tomato puree"],          "pantry"),
  (["sun-dried tomato"],      "pantry"),
  (["sundried tomato"],       "pantry"),
  (["sun dried tomato"],      "pantry"),
  (["canned tomato"],         "pantry"),
  (["diced tomato"],          "pantry"),
  (["crushed tomato"],        "pantry"),
  (["whole tomato"],          "pantry"),
  (["roasted pepper"],        "pantry"),
  (["artichoke heart"],       "pantry"),
  (["olive"],                 "pantry"),
  (["caper"],                 "pantry"),
  (["pickle"],                "pantry"),
  (["gherkin"],               "pantry"),
  (["coconut cream"],         "pantry"),
  (["coconut milk"],          "pantry"),
  (["anchovy paste"],         "pantry"),
  (["chipotle"],              "pantry"),
  (["harissa"],               "pantry"),
  (["gochujang"],             "pantry"),
  (["doubanjiang"],           "pantry"),
  (["doenjang"],              "pantry"),
  (["preserved mustard"],     "pantry"),
  (["sesame paste"],          "pantry"),
  (["dashi"],                 "pantry"),
  (["bonito"],                "pantry"),
  (["kombu"],                 "pantry"),
  (["nori"],                  "pantry"),
  (["seaweed"],               "pantry"),
  (["dried shrimp"],          "pantry"),
  (["shrimp paste"],          "pantry"),
  (["fish paste"],            "pantry"),
  (["curry paste"],           "pantry"),
  (["bean paste"],            "pantry"),
  (["chili paste"],           "pantry"),
  (["miso"],                  "pantry"),
  (["]kimchi"],               "pantry"),
  (["tahini"],                "pantry"),
  (["pesto"],                 "pantry"),
  (["hoisin"],                "condiment"),
  (["tomato ketchup"],        "condiment"),
  (["soy sauce"],             "condiment"),
  (["fish sauce"],            "condiment"),
  (["hot sauce"],             "condiment"),
  (["barbecue sauce"],        "condiment"),
  (["bbq sauce"],             "condiment"),
  (["teriyaki"],              "condiment"),
  (["]steak sauce"],          "condiment"),
  (["hoisin"],                "condiment"),
  (["oyster sauce"],          "condiment"),
  (["worcestershire"],        "condiment"),
  (["sriracha"],              "condiment"),
  (["mustard"],               "condiment"),
  (["mayonnaise"],            "condiment"),
  (["ketchup"],               "condiment"),
  (["salsa"],                 "condiment"),
  (["pesto"],                 "condiment"),
  (["miso"],                  "condiment"),
  (["tahini"],                "condiment"),
  (["sambal"],                "condiment"),
  (["chutney"],               "condiment"),
  (["relish"],                "condiment"),
  (["dressing"],              "condiment"),
  (["peanut butter"],         "pantry"),
  (["almond butter"],         "pantry"),
  (["cashew butter"],         "pantry"),
  (["nutella"],               "pantry"),
  (["hazelnut spread"],       "pantry"),
  (["]oyster mushroom sauce"], "pantry"),
  (["]starch water"],         "pantry"),
  (["]stick rice flour"],     "pantry"),
  (["]wakame"],               "pantry"),
  (["cream cheese"],          "cheese"),
  (["goat cheese"],           "cheese"),
  (["blue cheese"],           "cheese"),
  (["cottage cheese"],        "cheese"),
  (["almond milk"],           "pantry"),
  (["oat milk"],              "pantry"),
  (["soy milk"],              "pantry"),
  (["olive oil"],             "oil"),
  (["sesame oil"],            "oil"),
  (["coconut oil"],           "oil"),
  (["canola oil"],            "oil"),
  (["vegetable oil"],         "oil"),
  (["sunflower oil"],         "oil"),
  (["avocado oil"],           "oil"),
  (["truffle oil"],           "oil"),
  (["balsamic vinegar"],      "vinegar"),
  (["red wine vinegar"],      "vinegar"),
  (["white wine vinegar"],    "vinegar"),
  (["apple cider vinegar"],   "vinegar"),
  (["rice vinegar"],          "vinegar"),
  (["sherry vinegar"],        "vinegar"),
  (["lemon juice"],           "juice"),
  (["lime juice"],            "juice"),
  (["orange juice"],          "juice"),
  (["apple juice"],           "juice"),
  (["cranberry juice"],       "juice"),
  (["grapefruit juice"],      "juice"),
  (["pomegranate juice"],     "juice"),
  (["maple syrup"],           "sugar"),
  (["corn syrup"],            "sugar"),
  (["agave"],                 "sugar"),
  (["molasses"],              "sugar"),
  (["vanilla extract"],       "sugar"),
  (["cocoa powder"],          "sugar"),
  (["baking powder"],         "leavening"),
  (["baking soda"],           "leavening"),
  (["bicarbonate"],           "leavening"),
  (["yeast"],                 "leavening"),
  (["cream of tartar"],       "leavening"),
  (["gelatin"],               "leavening"),
  (["agar"],                  "leavening"),
  (["pectin"],                "leavening"),
  (["bread flour"],           "flour"),
  (["all-purpose flour"],     "flour"),
  (["all purpose flour"],     "flour"),
  (["cake flour"],            "flour"),
  (["pastry flour"],          "flour"),
  (["self-raising flour"],    "flour"),
  (["self raising flour"],    "flour"),
  (["whole wheat flour"],     "flour"),
  (["vital wheat gluten"],    "flour"),
  (["wheat gluten"],          "flour"),
  (["vital gluten"],          "flour"),
  (["]shortening"],           "flour"),
  (["]cornstarch"],           "flour"),
  (["corn starch"],           "flour"),
  (["cornflour"],             "flour"),
  (["almond flour"],          "flour"),
  (["rice flour"],            "flour"),
  (["tapioca"],               "flour"),
  (["arrowroot"],             "flour"),
  (["semolina"],              "flour"),
  (["brown sugar"],           "sugar"),
  (["powdered sugar"],        "sugar"),
  (["icing sugar"],           "sugar"),
  (["confectioner"],          "sugar"),
  (["demerara"],              "sugar"),
  (["turbinado"],             "sugar"),
  (["muscovado"],             "sugar"),
  (["caster sugar"],          "sugar"),
  (["granulated sugar"],      "sugar"),
  (["dark chocolate"],        "sugar"),
  (["white chocolate"],       "sugar"),
  (["milk chocolate"],        "sugar"),
  (["chocolate chip"],        "sugar"),
  (["ground beef"],           "meat"),
  (["ground pork"],           "meat"),
  (["ground turkey"],         "poultry"),
  (["ground chicken"],        "poultry"),
  (["sweet potato"],          "produce"),
  (["green bean"],            "produce"),
  (["bell pepper"],           "produce"),
  (["banana"],                "produce"),
  (["strawberry"],            "produce"),
  (["blueberry"],             "produce"),
  (["raspberry"],             "produce"),
  (["blackberry"],            "produce"),
  (["grape"],                 "produce"),
  (["peach"],                 "produce"),
  (["pear"],                  "produce"),
  (["cherry"],                "produce"),
  (["plum"],                  "produce"),
  (["watermelon"],            "produce"),
  (["cantaloupe"],            "produce"),
  (["honeydew"],              "produce"),
  (["mango"],                 "produce"),
  (["pineapple"],             "produce"),
  (["kiwi"],                  "produce"),
  (["papaya"],                "produce"),
  (["ya cai"],                "produce"),
  (["leek"],                  "produce"),
  (["shiitake"],              "produce"),
  (["enoki"],                 "produce"),
  (["portobello"],            "produce"),
  (["bok choy"],              "produce"),
  (["napa cabbage"],          "produce"),
  (["radish"],                "produce"),
  (["turnip"],                "produce"),
  (["beet"],                  "produce"),
  (["watercress"],            "produce"),
  (["arugula"],               "produce"),
  (["endive"],                "produce"),
  (["radicchio"],             "produce"),
  (["rhubarb"],               "produce"),
  (["plantain"],              "produce"),
  (["fig"],                   "produce"),
  (["guava"],                 "produce"),
  (["lemon zest"],            "produce"),
  (["lime zest"],             "produce"),
  (["orange zest"],           "produce"),
  (["black bean"],            "legume"),
  (["kidney bean"],           "legume"),
  (["pinto bean"],            "legume"),
  (["navy bean"],             "legume"),
  (["chickpea"],              "legume"),
  (["lentil"],                "legume"),
  (["pine nut"],              "nut"),
  (["sesame seed"],           "nut"),
  (["sunflower seed"],        "nut"),
  (["pumpkin seed"],          "nut"),
  (["poppy seed"],            "nut"),
  (["flax seed"],             "nut"),
  (["chia seed"],             "nut"),
  (["red wine"],              "alcohol"),
  (["white wine"],            "alcohol"),
  (["rice wine"],             "alcohol"),
  (["kosher salt"],           "spice"),
  (["sea salt"],              "spice"),
  (["maldon salt"],           "spice"),
  (["fine salt"],             "spice"),
  (["table salt"],            "spice"),
  (["fleur de sel"],          "spice"),
  (["black pepper"],          "spice"),
  (["white pepper"],          "spice"),
  (["cayenne pepper"],        "spice"),
  (["chili flake"],           "spice"),
  (["red pepper flake"],      "spice"),
  (["chili powder"],          "spice"),
  (["curry powder"],          "spice"),
  (["garam masala"],          "spice"),
  (["italian seasoning"],     "spice"),
  (["five spice"],            "spice"),
  (["onion powder"],          "spice"),
  (["garlic powder"],         "spice"),
  (["heavy cream"],           "dairy"),
  (["whipping cream"],        "dairy"),
  (["sour cream"],            "dairy"),
  (["half and half"],         "dairy"),
  (["crème fraîche"],         "dairy"),
  (["creme fraiche"],         "dairy"),
  (["evaporated milk"],       "dairy"),
  (["condensed milk"],        "dairy"),
  (["buttermilk"],            "dairy"),
  (["wine"],       "alcohol"),
  (["beer"],       "alcohol"),
  (["ale"],        "alcohol"),
  (["lager"],      "alcohol"),
  (["stout"],      "alcohol"),
  (["brandy"],     "alcohol"),
  (["cognac"],     "alcohol"),
  (["rum"],        "alcohol"),
  (["vodka"],      "alcohol"),
  (["whiskey"],    "alcohol"),
  (["whisky"],     "alcohol"),
  (["bourbon"],    "alcohol"),
  (["tequila"],    "alcohol"),
  (["gin"],        "alcohol"),
  (["sake"],       "alcohol"),
  (["mirin"],      "alcohol"),
  (["sherry"],     "alcohol"),
  (["port"],       "alcohol"),
  (["marsala"],    "alcohol"),
  (["kahlua"],     "alcohol"),
  (["amaretto"],   "alcohol"),
  (["grappa"],     "alcohol"),
  (["absinthe"],   "alcohol"),
  (["vermouth"],   "alcohol"),
  (["champagne"],  "alcohol"),
  (["prosecco"],   "alcohol"),
  (["cider"],      "alcohol"),
  (["mead"],       "alcohol"),
  (["liqueur"],    "alcohol"),
  (["campari"],    "alcohol"),
  (["aperol"],     "alcohol"),
  (["cointreau"],  "alcohol"),
  (["grand marnier"], "alcohol"),
  (["triple sec"], "alcohol"),
  (["limoncello"], "alcohol"),
  (["chartreuse"], "alcohol"),
  (["cola"],       "pop"),
  (["soda"],       "pop"),
  (["tonic"],      "pop"),
  (["sprite"],     "pop"),
  (["ginger ale"], "pop"),
  (["coffee"],     "beverage"),
  (["tea"],        "beverage"),
  (["broth"],      "beverage"),
  (["stock"],      "beverage"),
  (["water"],      "beverage"),
  (["juice"],      "juice"),
  (["beef"],       "meat"),
  (["steak"],      "meat"),
  (["pork"],       "meat"),
  (["bacon"],      "meat"),
  (["ham"],        "meat"),
  (["prosciutto"], "meat"),
  (["pancetta"],   "meat"),
  (["guanciale"],  "meat"),
  (["chorizo"],    "meat"),
  (["sausage"],    "meat"),
  (["salami"],     "meat"),
  (["pepperoni"],  "meat"),
  (["lamb"],       "meat"),
  (["veal"],       "meat"),
  (["venison"],    "meat"),
  (["bison"],      "meat"),
  (["rabbit"],     "meat"),
  (["lardon"],     "meat"),
  (["bresaola"],   "meat"),
  (["nduja"],      "meat"),
  (["short ribs"],    "meat"),
  (["slab ribs"],     "meat"),
  (["spare ribs"],    "meat"),
  (["beef ribs"],     "meat"),
  (["pork ribs"],     "meat"),
  (["oxtail"],        "meat"),
  (["tongue"],        "meat"),
  (["liver"],         "meat"),
  (["kidney"],        "meat"),
  (["heart"],         "meat"),
  (["offal"],         "meat"),
  (["chicken"],    "poultry"),
  (["turkey"],     "poultry"),
  (["duck"],       "poultry"),
  (["goose"],      "poultry"),
  (["quail"],      "poultry"),
  (["salmon"],     "seafood"),
  (["tuna"],       "seafood"),
  (["shrimp"],     "seafood"),
  (["prawn"],      "seafood"),
  (["crab"],       "seafood"),
  (["lobster"],    "seafood"),
  (["scallop"],    "seafood"),
  (["mussel"],     "seafood"),
  (["clam"],       "seafood"),
  (["oyster"],     "seafood"),
  (["anchovy"],    "seafood"),
  (["sardine"],    "seafood"),
  (["cod"],        "seafood"),
  (["halibut"],    "seafood"),
  (["tilapia"],    "seafood"),
  (["trout"],      "seafood"),
  (["bass"],       "seafood"),
  (["mackerel"],   "seafood"),
  (["squid"],      "seafood"),
  (["calamari"],   "seafood"),
  (["octopus"],    "seafood"),
  (["fish"],       "seafood"),
  (["seafood"],    "seafood"),
  (["crustacean"], "seafood"),
  (["egg"],        "egg"),
  (["cheese"],     "cheese"),
  (["cheddar"],    "cheese"),
  (["parmesan"],   "cheese"),
  (["parmigiano"], "cheese"),
  (["mozzarella"], "cheese"),
  (["gruyere"],    "cheese"),
  (["gruyère"],    "cheese"),
  (["feta"],       "cheese"),
  (["brie"],       "cheese"),
  (["camembert"],  "cheese"),
  (["gouda"],      "cheese"),
  (["ricotta"],    "cheese"),
  (["mascarpone"], "cheese"),
  (["pecorino"],   "cheese"),
  (["emmental"],   "cheese"),
  (["havarti"],    "cheese"),
  (["provolone"],  "cheese"),
  (["halloumi"],   "cheese"),
  (["burrata"],    "cheese"),
  (["paneer"],     "cheese"),
  (["manchego"],   "cheese"),
  (["roquefort"],  "cheese"),
  (["gorgonzola"], "cheese"),
  (["stilton"],    "cheese"),
  (["milk"],       "dairy"),
  (["butter"],     "dairy"),
  (["cream"],      "dairy"),
  (["yogurt"],     "dairy"),
  (["yoghurt"],    "dairy"),
  (["dairy"],      "dairy"),
  (["ghee"],       "dairy"),
  (["rice"],       "grain"),
  (["bread"],      "grain"),
  (["sourdough"],  "grain"),
  (["brioche"],    "grain"),
  (["ciabatta"],   "grain"),
  (["focaccia"],   "grain"),
  (["pita"],       "grain"),
  (["naan"],       "grain"),
  (["baguette"],   "grain"),
  (["oat"],        "grain"),
  (["quinoa"],     "grain"),
  (["barley"],     "grain"),
  (["couscous"],   "grain"),
  (["bulgur"],     "grain"),
  (["millet"],     "grain"),
  (["polenta"],    "grain"),
  (["grits"],      "grain"),
  (["breadcrumb"], "grain"),
  (["panko"],      "grain"),
  (["tortilla"],   "grain"),
  (["cracker"],    "grain"),
  (["cereal"],     "grain"),
  (["granola"],    "grain"),
  (["pasta"],      "pasta"),
  (["spaghetti"],  "pasta"),
  (["penne"],      "pasta"),
  (["rigatoni"],   "pasta"),
  (["linguine"],   "pasta"),
  (["fettuccine"], "pasta"),
  (["noodle"],     "pasta"),
  (["lasagna"],    "pasta"),
  (["lasagne"],    "pasta"),
  (["macaroni"],   "pasta"),
  (["orzo"],       "pasta"),
  (["fusilli"],    "pasta"),
  (["farfalle"],   "pasta"),
  (["tagliatelle"],"pasta"),
  (["gnocchi"],    "pasta"),
  (["ramen"],      "pasta"),
  (["udon"],       "pasta"),
  (["soba"],       "pasta"),
  (["vermicelli"], "pasta"),
  (["ravioli"],    "pasta"),
  (["tortellini"], "pasta"),
  (["bean"],       "legume"),
  (["lentil"],     "legume"),
  (["chickpea"],   "legume"),
  (["tofu"],       "dairy"),
  (["tempeh"],     "legume"),
  (["edamame"],    "legume"),
  (["almond"],     "nut"),
  (["walnut"],     "nut"),
  (["pecan"],      "nut"),
  (["cashew"],     "nut"),
  (["pistachio"],  "nut"),
  (["peanut"],     "nut"),
  (["hazelnut"],   "nut"),
  (["macadamia"],  "nut"),
  (["chestnut"],   "nut"),
  (["coconut"],    "nut"),
  (["salt"],       "spice"),
  (["pepper"],     "spice"),
  (["cumin"],      "spice"),
  (["paprika"],    "spice"),
  (["cayenne"],    "spice"),
  (["cinnamon"],   "spice"),
  (["nutmeg"],     "spice"),
  (["oregano"],    "spice"),
  (["turmeric"],   "spice"),
  (["coriander"],  "spice"),
  (["cardamom"],   "spice"),
  (["clove"],      "spice"),
  (["allspice"],   "spice"),
  (["saffron"],    "spice"),
  (["anise"],      "spice"),
  (["fennel"],     "spice"),
  (["]tsaoko"],    "spice"),
  (["dill"],       "spice"),
  (["thyme"],      "spice"),
  (["rosemary"],   "spice"),
  (["sage"],       "spice"),
  (["basil"],      "spice"),
  (["parsley"],    "spice"),
  (["cilantro"],   "spice"),
  (["mint"],       "spice"),
  (["tarragon"],   "spice"),
  (["chive"],      "spice"),
  (["bay leaf"],   "spice"),
  (["bay leaves"], "spice"),
  (["marjoram"],   "spice"),
  (["five spice"], "spice"),
  (["gochugaru"],  "spice"),
  (["sumac"],      "spice"),
  (["zaatar"],     "spice"),
  (["za\x27atar"], "spice"),
  (["lemongrass"], "spice"),
  (["fenugreek"],  "spice"),
  (["msg"],        "spice"),
  (["spice"],      "spice"),
  (["seasoning"],  "spice"),
  (["herb"],       "spice"),
  (["sauce"],      "condiment"),
  (["paste"],      "condiment"),
  (["marinade"],   "condiment"),
  (["glaze"],      "condiment"),
  (["oil"],        "oil"),
  (["vinegar"],    "vinegar"),
  (["flour"],      "flour"),
  (["starch"],     "flour"),
  (["sugar"],      "sugar"),
  (["honey"],      "sugar"),
  (["syrup"],      "sugar"),
  (["chocolate"],  "sugar"),
  (["candy"],      "sugar"),
  (["caramel"],    "sugar"),
  (["jam"],        "sugar"),
  (["jelly"],      "sugar"),
  (["marmalade"],  "sugar"),
  (["vanilla"],    "sugar")]

/-- The ordered OFF-category → category table (`OFF_CATEGORY_MAP` in the
source); `none` is the explicit "no opinion" sentinel (`None` in Python). -/
def OFF_CATEGORY_MAP : List (String × Option String) := [
  ("plant-based", none),
  ("breakfast cereal", some "grain"),
  ("ice cream", some "dairy"),
  ("frozen meal", none),
  ("ready meal", none),
  ("meat", some "meat"),
  ("ham", some "meat"),
  ("beef", some "meat"),
  ("pork", some "meat"),
  ("sausage", some "meat"),
  ("deli", some "meat"),
  ("poultry", some "poultry"),
  ("chicken", some "poultry"),
  ("turkey", some "poultry"),
  ("fish", some "seafood"),
  ("seafood", some "seafood"),
  ("crustacean", some "seafood"),
  ("cheese", some "cheese"),
  ("dairy", some "dairy"),
  ("milk", some "dairy"),
  ("butter", some "dairy"),
  ("cream", some "dairy"),
  ("yogurt", some "dairy"),
  ("egg", some "egg"),
  ("bread", some "grain"),
  ("cereal", some "grain"),
  ("rice", some "grain"),
  ("grain", some "grain"),
  ("pasta", some "pasta"),
  ("noodle", some "pasta"),
  ("legume", some "legume"),
  ("bean", some "legume"),
  ("lentil", some "legume"),
  ("nut", some "nut"),
  ("seed", some "nut"),
  ("spice", some "spice"),
  ("herb", some "spice"),
  ("seasoning", some "spice"),
  ("sauce", some "condiment"),
  ("condiment", some "condiment"),
  ("dressing", some "condiment"),
  ("mustard", some "condiment"),
  ("ketchup", some "condiment"),
  ("oil", some "oil"),
  ("vinegar", some "vinegar"),
  ("flour", some "flour"),
  ("sugar", some "sugar"),
  ("sweetener", some "sugar"),
  ("honey", some "sugar"),
  ("syrup", some "sugar"),
  ("chocolate", some "sugar"),
  ("candy", some "sugar"),
  ("confectionery", some "sugar"),
  ("baking", some "leavening"),
  ("alcohol", some "alcohol"),
  ("wine", some "alcohol"),
  ("beer", some "alcohol"),
  ("spirit", some "alcohol"),
  ("soda", some "pop"),
  ("soft drink", some "pop"),
  ("juice", some "juice"),
  ("coffee", some "beverage"),
  ("tea", some "beverage"),
  ("water", some "beverage"),
  ("beverage", some "beverage"),
  ("drink", some "beverage"),
  ("snack", none),
  ("frozen", none),
  ("canned", none)]

/-- `all(kw in name for kw in keywords)`: every keyword of a rule occurs
as a substring of the name. -/
def ruleMatch (name : String) (kws : List String) : Bool :=
  kws.all (fun kw => pyIn kw name)

/-- The first-match scan underlying `classify_by_name`. -/
def findRule : List (List String × String) → String → Option String
  | [], _ => none
  | (kws, c) :: rest, name =>
      if ruleMatch name kws then some c else findRule rest name

/-- `classify_by_name` from the source: first rule of `KEYWORD_RULES`
all of whose keywords occur in the name wins. -/
def classify_by_name (name : String) : Option String :=
  findRule KEYWORD_RULES name

/-- The first-match scan underlying `classify_by_off_category`: the first
rule whose keyword occurs in the text halts the scan and its target
(possibly the `none` sentinel) is returned. -/
def findOff : List (String × Option String) → String → Option String
  | [], _ => none
  | (kw, c) :: rest, t => if pyIn kw t then c else findOff rest t

/-- `classify_by_off_category` from the source: empty text never matches;
otherwise the first matching rule of `OFF_CATEGORY_MAP` decides. -/
def classify_by_off_category (off_cat : String) : Option String :=
  if off_cat = "" then none else findOff OFF_CATEGORY_MAP off_cat

/-- The fixed denylist of prepared/snack-food terms (`skip_words` in
`is_culinary_ingredient`). -/
def skip_words : List String :=
  ["pizza", "sandwich", "burger", "wrap", "meal kit", "ready to eat",
   "frozen dinner", "tv dinner", "microwave", "instant", "protein bar",
   "energy bar", "snack bar", "chips", "crisps", "cookie", "biscuit",
   "crouton", "popcorn", "pretzel"]

/-- 5 consecutive decimal digits at the head of the list. -/
def fiveDigitsAt : List Char → Bool
  | a :: b :: c :: d :: e :: _ =>
      a.isDigit && b.isDigit && c.isDigit && d.isDigit && e.isDigit
  | _ => false

/-- `re.search(r'\d{5,}', name)`: the string contains a run of 5 or more
consecutive digits (a run of ≥ 5 digits exists iff 5 consecutive digits
start at some position). -/
def hasDigitRun : List Char → Bool
  | [] => false
  | c :: t => fiveDigitsAt (c :: t) || hasDigitRun t

/-- `is_culinary_ingredient` from the source: rejects names longer than
60 characters, names containing a 5-digit run, and names containing any
denylist term; the `off_cat` and `tags` arguments are accepted and unused,
exactly as in the source. -/
def is_culinary_ingredient (name _off_cat _tags : String) : Bool :=
  if 60 < name.data.length then false
  else if hasDigitRun name.data then false
  else if skip_words.any (fun w => pyIn w name) then false
  else true

/-- Python `str.lower()` (ASCII model, matching the rule-table alphabet). -/
def pyLower (s : String) : String := ⟨s.data.map Char.toLower⟩

/-- Remove leading and trailing whitespace from a character list. -/
def stripL (cs : List Char) : List Char :=
  ((cs.dropWhile Char.isWhitespace).reverse.dropWhile Char.isWhitespace).reverse

/-- Python `str.strip()`. -/
def pyStrip (s : String) : String := ⟨stripL s.data⟩

/-- One input row of the bulk TSV source; each field is the raw string
value, with `""` standing for an absent or empty field (the source reads
every field as `row.get(key, '') or ''`). -/
structure Row where
  product_name : String := ""
  main_category_en : String := ""
  categories_tags : String := ""
  labels_en : String := ""
  allergens_en : String := ""
  energy_kcal_100g : String := ""
  proteins_100g : String := ""
  carbohydrates_100g : String := ""
  fat_100g : String := ""
  fiber_100g : String := ""
  sodium_100g : String := ""
deriving DecidableEq

/-- Numeric value of a decimal digit character. -/
def digitVal (c : Char) : Nat := c.toNat - 48

/-- Value of a digit string read left to right. -/
def natFromDigits (cs : List Char) : Nat :=
  cs.foldl (fun n c => n * 10 + digitVal c) 0

/-- Split a character list at the first `.` (integer part, fraction part);
without a dot the whole list is the integer part. -/
def splitDot : List Char → (List Char × List Char)
  | [] => ([], [])
  | c :: t => if c = '.' then ([], t)
              else let p := splitDot t; (c :: p.1, p.2)

/-- Lexical part of Python's `float()` on the decimal literals occurring
in the nutrition columns: optional surrounding whitespace, optional sign,
digits with an optional fractional part.  Returns the sign, the integer
part, the fraction digits' value and the fraction length.  Anything else
fails (raises `ValueError` in the source, modelled as `none`); exponent
notation and the special values `inf`/`nan` are outside this model. -/
def parseDec (s : String) : Option (Bool × Nat × Nat × Nat) :=
  let cs := stripL s.data
  let sgnRest : Bool × List Char :=
    match cs with
    | '-' :: t => (true, t)
    | '+' :: t => (false, t)
    | t => (false, t)
  let p := splitDot sgnRest.2
  if p.1.all Char.isDigit && p.2.all Char.isDigit && !(p.1.isEmpty && p.2.isEmpty)
  then some (sgnRest.1, natFromDigits p.1, natFromDigits p.2, p.2.length)
  else none

/-- The rational value of a parsed decimal literal. -/
def decValue (d : Bool × Nat × Nat × Nat) : ℚ :=
  (if d.1 then (-1 : ℚ) else 1) *
    ((d.2.1 : ℚ) + (d.2.2.1 : ℚ) / (10 : ℚ) ^ d.2.2.2)

/-- Python's `float()` (see `parseDec`). -/
def parseFloat (s : String) : Option ℚ := (parseDec s).map decValue

/-- Round to the nearest integer, ties to the even integer (the rounding
rule of Python's `round`). -/
def roundHalfEven (x : ℚ) : ℤ :=
  if x - ⌊x⌋ < 1/2 then ⌊x⌋
  else if 1/2 < x - ⌊x⌋ then ⌊x⌋ + 1
  else if Even ⌊x⌋ then ⌊x⌋ else ⌊x⌋ + 1

/-- Python's `round(x, nd)` on exact decimal values: round half to even
at `nd` decimal places. -/
def pyRound (x : ℚ) (nd : Nat) : ℚ :=
  (roundHalfEven (x * (10 : ℚ) ^ nd) : ℚ) / (10 : ℚ) ^ nd

/-- The per-name metadata record (the `meta` dict in the source); `none`
in an optional field models the key being absent from the dict. -/
structure Meta where
  cat : Nat
  vegan : Option Bool := none
  vegetarian : Option Bool := none
  allergens : Option String := none
  kcal : Option ℚ := none
  protein : Option ℚ := none
  carbs : Option ℚ := none
  fat : Option ℚ := none
  fiber : Option ℚ := none
  sodium : Option ℚ := none
deriving DecidableEq

/-- The dietary-label step of the metadata block (source lines 804-808):
`vegan` is tested before `vegetarian`, so only one flag is ever set. -/
def metaLabels (row : Row) (m : Meta) : Meta :=
  if pyIn "vegan" (pyLower row.labels_en) then { m with vegan := some true }
  else if pyIn "vegetarian" (pyLower row.labels_en) then { m with vegetarian := some true }
  else m

/-- The allergen step of the metadata block (source lines 811-813). -/
def metaAllergens (row : Row) (m : Meta) : Meta :=
  if pyStrip row.allergens_en ≠ "" then { m with allergens := some (pyStrip row.allergens_en) }
  else m

/-- The energy step (source lines 816-821): whole-number rounding, a
`ValueError` leaves the record unchanged. -/
def metaKcal (row : Row) (m : Meta) : Meta :=
  if row.energy_kcal_100g ≠ "" then
    match parseFloat row.energy_kcal_100g with
    | some q => { m with kcal := some (pyRound q 0) }
    | none => m
  else m

/-- The protein step (source lines 823-828): one-decimal rounding. -/
def metaProtein (row : Row) (m : Meta) : Meta :=
  if row.proteins_100g ≠ "" then
    match parseFloat row.proteins_100g with
    | some q => { m with protein := some (pyRound q 1) }
    | none => m
  else m

/-- The carbohydrate step (source lines 830-835): one-decimal rounding. -/
def metaCarbs (row : Row) (m : Meta) : Meta :=
  if row.carbohydrates_100g ≠ "" then
    match parseFloat row.carbohydrates_100g with
    | some q => { m with carbs := some (pyRound q 1) }
    | none => m
  else m

/-- The fat step (source lines 837-842): one-decimal rounding. -/
def metaFat (row : Row) (m : Meta) : Meta :=
  if row.fat_100g ≠ "" then
    match parseFloat row.fat_100g with
    | some q => { m with fat := some (pyRound q 1) }
    | none => m
  else m

/-- The fiber step (source lines 844-849): one-decimal rounding. -/
def metaFiber (row : Row) (m : Meta) : Meta :=
  if row.fiber_100g ≠ "" then
    match parseFloat row.fiber_100g with
    | some q => { m with fiber := some (pyRound q 1) }
    | none => m
  else m

/-- The sodium step (source lines 851-856): three-decimal rounding. -/
def metaSodium (row : Row) (m : Meta) : Meta :=
  if row.sodium_100g ≠ "" then
    match parseFloat row.sodium_100g with
    | some q => { m with sodium := some (pyRound q 3) }
    | none => m
  else m

/-- The metadata-collection block of `build_database` (source lines
801-858) applied to one classified row: the eight steps in source order,
starting from `meta = {"cat": cat_index}`. -/
def buildMeta (row : Row) (cat_index : Nat) : Meta :=
  metaSodium row (metaFiber row (metaFat row (metaCarbs row (metaProtein row
    (metaKcal row (metaAllergens row (metaLabels row { cat := cat_index })))))))

/-- Python dict assignment `db[k] = v`: update the value in place when
the key is present, append otherwise. -/
def dictInsert {α : Type} (db : List (String × α)) (k : String) (v : α) :
    List (String × α) :=
  if db.any (fun p => p.1 == k) then
    db.map (fun p => if p.1 == k then (k, v) else p)
  else db ++ [(k, v)]

/-- Run state of `build_database`: the two output mappings (the second
present only when `--meta` is on) and the three outcome counters. -/
structure BState where
  category_db : List (String × Nat)
  meta_db : Option (List (String × Meta))
  skipped : Nat
  classified : Nat
  unclassified : Nat
deriving DecidableEq

/-- The three-source resolution of `build_database` (source lines
780-785): name rules first, then the primary category field, then the
tags field. -/
def resolveCat (name off_cat tags : String) : Option String :=
  match classify_by_name name with
  | some c => some c
  | none =>
    match classify_by_off_category off_cat with
    | some c => some c
    | none => classify_by_off_category tags

/-- The tail of the loop body of `build_database` after resolution
(source lines 787-858): unresolved rows and rows whose category looks up
to the unknown ordinal are counted unclassified; otherwise the row is
recorded in the output mapping(s) and counted classified. -/
def finishRow (s : BState) (row : Row) (name : String) (cat : Option String) :
    BState :=
  match cat with
  | none => { s with unclassified := s.unclassified + 1 }
  | some c =>
    if catGet c = UNKNOWN then { s with unclassified := s.unclassified + 1 }
    else
      { s with
        category_db := dictInsert s.category_db name (catGet c),
        classified := s.classified + 1,
        meta_db := match s.meta_db with
                   | none => none
                   | some md => some (dictInsert md name (buildMeta row (catGet c))) }

/-- One iteration of the row loop of `build_database` (source lines
759-858): normalize the name, apply the short-name check, the ingredient
filter, then resolve and record. -/
def processRow (s : BState) (row : Row) : BState :=
  if pyStrip (pyLower row.product_name) = "" ∨
     (pyStrip (pyLower row.product_name)).data.length < 2 then
    { s with skipped := s.skipped + 1 }
  else if is_culinary_ingredient (pyStrip (pyLower row.product_name))
        (pyLower row.main_category_en) (pyLower row.categories_tags) = false then
    { s with skipped := s.skipped + 1 }
  else
    finishRow s row (pyStrip (pyLower row.product_name))
      (resolveCat (pyStrip (pyLower row.product_name))
        (pyLower row.main_category_en) (pyLower row.categories_tags))

/-- The output-mapping entry a row produces, if any: `some (name, idx)`
exactly when the row classifies successfully. -/
def rowOutcome (row : Row) : Option (String × Nat) :=
  if pyStrip (pyLower row.product_name) = "" ∨
     (pyStrip (pyLower row.product_name)).data.length < 2 then none
  else if is_culinary_ingredient (pyStrip (pyLower row.product_name))
        (pyLower row.main_category_en) (pyLower row.categories_tags) = false then none
  else
    match resolveCat (pyStrip (pyLower row.product_name))
        (pyLower row.main_category_en) (pyLower row.categories_tags) with
    | none => none
    | some c =>
      if catGet c = UNKNOWN then none
      else some (pyStrip (pyLower row.product_name), catGet c)

/-- The initial run state of `build_database`. -/
def initState (generate_meta : Bool) : BState :=
  { category_db := [], meta_db := if generate_meta then some [] else none,
    skipped := 0, classified := 0, unclassified := 0 }

/-- `build_database` restricted to its row loop: fold the loop body over
the input rows (file I/O and reporting are outside the model). -/
def build_database (rows : List Row) (generate_meta : Bool) : BState :=
  rows.foldl processRow (initState generate_meta)

/-! ## Helper lemmas -/

theorem mem_of_isPrefixL : ∀ {kw s : List Char}, isPrefixL kw s = true →
    ∀ c ∈ kw, c ∈ s := by
  intro kw
  induction kw with
  | nil => intro s _ c hc; exact absurd hc (List.not_mem_nil c)
  | cons a as ih =>
    intro s h c hc
    cases s with
    | nil => simp [isPrefixL] at h
    | cons b bs =>
      rw [isPrefixL, Bool.and_eq_true] at h
      have hab : a = b := by simpa using h.1
      rcases List.mem_cons.mp hc with rfl | hcs
      · exact hab ▸ List.mem_cons_self _ _
      · exact List.mem_cons_of_mem _ (ih h.2 c hcs)

theorem mem_of_containsL : ∀ {s kw : List Char}, containsL kw s = true →
    ∀ c ∈ kw, c ∈ s := by
  intro s
  induction s with
  | nil =>
    intro kw h c hc
    cases kw with
    | nil => exact absurd hc (List.not_mem_nil c)
    | cons a as => simp [containsL, isPrefixL] at h
  | cons b bs ih =>
    intro kw h c hc
    rw [containsL, Bool.or_eq_true] at h
    rcases h with h1 | h2
    · exact mem_of_isPrefixL h1 c hc
    · exact List.mem_cons_of_mem _ (ih h2 c hc)

theorem pyIn_false_of_not_mem {kw name : String} {c : Char}
    (hk : c ∈ kw.data) (hn : c ∉ name.data) : pyIn kw name = false := by
  by_contra h
  have h' : containsL kw.data name.data = true := by
    simpa [pyIn] using h
  exact hn (mem_of_containsL h' c hk)

theorem findOff_append (pre post : List (String × Option String))
    (kw : String) (tgt : Option String) (t : String)
    (hpre : ∀ p ∈ pre, pyIn p.1 t = false) (hkw : pyIn kw t = true) :
    findOff (pre ++ (kw, tgt) :: post) t = tgt := by
  induction pre with
  | nil => simp [findOff, hkw]
  | cons p ps ih =>
    obtain ⟨pk, pc⟩ := p
    have hp : pyIn pk t = false := hpre (pk, pc) (List.mem_cons_self _ _)
    rw [List.cons_append, findOff, hp]
    simp only [Bool.false_eq_true, if_false]
    exact ih (fun q hq => hpre q (List.mem_cons_of_mem _ hq))

theorem findRule_mem : ∀ {rules : List (List String × String)} {name c},
    findRule rules name = some c → ∃ kws, (kws, c) ∈ rules := by
  intro rules
  induction rules with
  | nil => intro name c h; simp [findRule] at h
  | cons r rs ih =>
    intro name c h
    obtain ⟨kws, cat⟩ := r
    rw [findRule] at h
    by_cases hm : ruleMatch name kws = true
    · rw [if_pos hm] at h
      injection h with h
      exact ⟨kws, h ▸ List.mem_cons_self _ _⟩
    · rw [if_neg hm] at h
      obtain ⟨k, hk⟩ := ih h
      exact ⟨k, List.mem_cons_of_mem _ hk⟩

theorem findOff_mem : ∀ {rules : List (String × Option String)} {t c},
    findOff rules t = some c → ∃ kw, (kw, some c) ∈ rules := by
  intro rules
  induction rules with
  | nil => intro t c h; simp [findOff] at h
  | cons r rs ih =>
    intro t c h
    obtain ⟨pk, pc⟩ := r
    rw [findOff] at h
    by_cases hm : pyIn pk t = true
    · rw [if_pos hm] at h
      exact ⟨pk, h ▸ List.mem_cons_self _ _⟩
    · rw [if_neg hm] at h
      obtain ⟨k, hk⟩ := ih h
      exact ⟨k, List.mem_cons_of_mem _ hk⟩

theorem classify_by_name_mem {name c} (h : classify_by_name name = some c) :
    ∃ kws, (kws, c) ∈ KEYWORD_RULES :=
  findRule_mem h

theorem classify_by_off_category_mem {t c}
    (h : classify_by_off_category t = some c) :
    ∃ kw, (kw, some c) ∈ OFF_CATEGORY_MAP := by
  unfold classify_by_off_category at h
  by_cases ht : t = ""
  · rw [if_pos ht] at h; exact absurd h (by simp)
  · rw [if_neg ht] at h; exact findOff_mem h

theorem mem_dictInsert {α : Type} {db : List (String × α)} {k : String}
    {v : α} {p : String × α} (h : p ∈ dictInsert db k v) :
    p = (k, v) ∨ p ∈ db := by
  unfold dictInsert at h
  split at h
  · obtain ⟨q, hq, hpq⟩ := List.mem_map.mp h
    by_cases hqk : (q.1 == k) = true
    · rw [if_pos hqk] at hpq; exact Or.inl hpq.symm
    · rw [if_neg hqk] at hpq; exact Or.inr (hpq ▸ hq)
  · rcases List.mem_append.mp h with h | h
    · exact Or.inr h
    · exact Or.inl (by simpa using h)

theorem lookup_map_update {α : Type} (k : String) (v : α) :
    ∀ (db : List (String × α)), db.any (fun p => p.1 == k) = true →
    List.lookup k (db.map fun p => if p.1 == k then (k, v) else p) = some v := by
  intro db
  induction db with
  | nil => intro h; simp at h
  | cons q qs ih =>
    intro h
    by_cases hq : (q.1 == k) = true
    · rw [List.map_cons, if_pos hq]
      simp [List.lookup]
    · have hqf : (q.1 == k) = false := by simpa using hq
      have hq' : (k == q.1) = false := by
        have hne : q.1 ≠ k := by simpa using hq
        simpa [beq_iff_eq] using fun he => hne he.symm
      rw [List.map_cons, if_neg hq, List.lookup, hq']
      apply ih
      rw [List.any_cons, hqf, Bool.false_or] at h
      exact h

theorem lookup_append_single {α : Type} (k : String) (v : α) :
    ∀ (db : List (String × α)), db.any (fun p => p.1 == k) = false →
    List.lookup k (db ++ [(k, v)]) = some v := by
  intro db
  induction db with
  | nil => simp [List.lookup]
  | cons q qs ih =>
    intro h
    rw [List.any_cons, Bool.or_eq_false_iff] at h
    have hq' : (k == q.1) = false := by
      have hne : q.1 ≠ k := by simpa using h.1
      simpa [beq_iff_eq] using fun he => hne he.symm
    rw [List.cons_append, List.lookup, hq']
    exact ih h.2

theorem lookup_dictInsert_self {α : Type} (db : List (String × α))
    (k : String) (v : α) : List.lookup k (dictInsert db k v) = some v := by
  unfold dictInsert
  split
  · rename_i h; exact lookup_map_update k v db h
  · rename_i h
    simp only [Bool.not_eq_true] at h
    exact lookup_append_single k v db h

theorem lookup_map_update_ne {α : Type} {k k' : String}
    (hk' : (k' == k) = false) (v : α) : ∀ (db : List (String × α)),
    List.lookup k' (db.map fun p => if p.1 == k then (k, v) else p) =
      List.lookup k' db := by
  intro db
  induction db with
  | nil => rfl
  | cons q qs ih =>
    by_cases hq : (q.1 == k) = true
    · have hq1 : q.1 = k := by simpa using hq
      rw [List.map_cons, if_pos hq, List.lookup, List.lookup, hk', hq1, hk']
      exact ih
    · rw [List.map_cons, if_neg hq, List.lookup, List.lookup]
      cases hkq : (k' == q.1) with
      | true => rfl
      | false => exact ih

theorem lookup_append_single_ne {α : Type} {k k' : String}
    (hk' : (k' == k) = false) (v : α) : ∀ (db : List (String × α)),
    List.lookup k' (db ++ [(k, v)]) = List.lookup k' db := by
  intro db
  induction db with
  | nil => simp [List.lookup, hk']
  | cons q qs ih =>
    rw [List.cons_append, List.lookup, List.lookup]
    cases hkq : (k' == q.1) with
    | true => rfl
    | false => exact ih

theorem lookup_dictInsert_ne {α : Type} (db : List (String × α))
    {k k' : String} (v : α) (h : k' ≠ k) :
    List.lookup k' (dictInsert db k v) = List.lookup k' db := by
  have hk' : (k' == k) = false := by simpa [beq_iff_eq] using h
  unfold dictInsert
  split
  · exact lookup_map_update_ne hk' v db
  · exact lookup_append_single_ne hk' v db

theorem dictInsert_keys_nodup {α : Type} {db : List (String × α)}
    (h : (db.map Prod.fst).Nodup) (k : String) (v : α) :
    ((dictInsert db k v).map Prod.fst).Nodup := by
  unfold dictInsert
  split
  case isTrue hany =>
    rw [List.map_map]
    have he : db.map (Prod.fst ∘ fun p => if p.1 == k then (k, v) else p) =
        db.map Prod.fst := by
      apply List.map_congr_left
      intro p _
      by_cases hp : (p.1 == k) = true
      · simp only [Function.comp_apply, if_pos hp]
        exact (by simpa using hp : p.1 = k).symm
      · simp only [Function.comp_apply, if_neg hp]
    rw [he]; exact h
  case isFalse hany =>
    rw [List.map_append, List.nodup_append]
    refine ⟨h, List.nodup_singleton _, ?_⟩
    intro a ha hb
    have hak : a = k := by simpa using hb
    obtain ⟨p, hp, hpa⟩ := List.mem_map.mp ha
    have : db.any (fun p => p.1 == k) = true :=
      List.any_eq_true.mpr ⟨p, hp, by simp [hpa, hak]⟩
    simp [this] at hany

theorem processRow_category_db (s : BState) (row : Row) :
    (processRow s row).category_db =
      match rowOutcome row with
      | none => s.category_db
      | some p => dictInsert s.category_db p.1 p.2 := by
  unfold processRow rowOutcome finishRow
  by_cases h1 : (pyStrip (pyLower row.product_name) = "" ∨
      (pyStrip (pyLower row.product_name)).data.length < 2)
  · rw [if_pos h1, if_pos h1]
  · rw [if_neg h1, if_neg h1]
    by_cases h2 : is_culinary_ingredient (pyStrip (pyLower row.product_name))
        (pyLower row.main_category_en) (pyLower row.categories_tags) = false
    · rw [if_pos h2, if_pos h2]
    · rw [if_neg h2, if_neg h2]
      cases hc : resolveCat (pyStrip (pyLower row.product_name))
          (pyLower row.main_category_en) (pyLower row.categories_tags) with
      | none => rfl
      | some c =>
        by_cases hu : catGet c = UNKNOWN
        · simp [hu]
        · simp [hu]

theorem rowOutcome_ne_unknown {row : Row} {n : String} {v : Nat}
    (h : rowOutcome row = some (n, v)) : v ≠ UNKNOWN := by
  unfold rowOutcome at h
  by_cases h1 : (pyStrip (pyLower row.product_name) = "" ∨
      (pyStrip (pyLower row.product_name)).data.length < 2)
  · rw [if_pos h1] at h; exact absurd h (by simp)
  · rw [if_neg h1] at h
    by_cases h2 : is_culinary_ingredient (pyStrip (pyLower row.product_name))
        (pyLower row.main_category_en) (pyLower row.categories_tags) = false
    · rw [if_pos h2] at h; exact absurd h (by simp)
    · rw [if_neg h2] at h
      cases hc : resolveCat (pyStrip (pyLower row.product_name))
          (pyLower row.main_category_en) (pyLower row.categories_tags) with
      | none => rw [hc] at h; exact absurd h (by simp)
      | some c =>
        rw [hc] at h
        dsimp only at h
        by_cases hu : catGet c = UNKNOWN
        · rw [if_pos hu] at h; exact absurd h (by simp)
        · rw [if_neg hu, Option.some_inj] at h
          have h2v : catGet c = v := congrArg Prod.snd h
          rw [← h2v]; exact hu

theorem parseFloat_empty : parseFloat "" = none := by decide

theorem metaLabels_eq (row : Row) (m : Meta) :
    metaLabels row m =
      { m with
        vegan := if pyIn "vegan" (pyLower row.labels_en) then some true else m.vegan,
        vegetarian := if pyIn "vegan" (pyLower row.labels_en) then m.vegetarian
          else if pyIn "vegetarian" (pyLower row.labels_en) then some true
          else m.vegetarian } := by
  unfold metaLabels
  split
  case isTrue h => rfl
  case isFalse h =>
    split
    case isTrue h2 => rfl
    case isFalse h2 => rfl

theorem metaAllergens_eq (row : Row) (m : Meta) :
    metaAllergens row m =
      { m with
        allergens := if pyStrip row.allergens_en ≠ "" then
          some (pyStrip row.allergens_en) else m.allergens } := by
  unfold metaAllergens
  split
  case isTrue h => rfl
  case isFalse h => rfl

theorem metaKcal_eq (row : Row) (m : Meta) :
    metaKcal row m =
      { m with
        kcal := match parseFloat row.energy_kcal_100g with
          | some q => some (pyRound q 0)
          | none => m.kcal } := by
  unfold metaKcal
  by_cases h : row.energy_kcal_100g = ""
  · rw [if_neg (by simp [h]), h, parseFloat_empty]
  · rw [if_pos h]
    cases hp : parseFloat row.energy_kcal_100g with
    | none => rfl
    | some q => rfl

theorem metaProtein_eq (row : Row) (m : Meta) :
    metaProtein row m =
      { m with
        protein := match parseFloat row.proteins_100g with
          | some q => some (pyRound q 1)
          | none => m.protein } := by
  unfold metaProtein
  by_cases h : row.proteins_100g = ""
  · rw [if_neg (by simp [h]), h, parseFloat_empty]
  · rw [if_pos h]
    cases hp : parseFloat row.proteins_100g with
    | none => rfl
    | some q => rfl

theorem metaCarbs_eq (row : Row) (m : Meta) :
    metaCarbs row m =
      { m with
        carbs := match parseFloat row.carbohydrates_100g with
          | some q => some (pyRound q 1)
          | none => m.carbs } := by
  unfold metaCarbs
  by_cases h : row.carbohydrates_100g = ""
  · rw [if_neg (by simp [h]), h, parseFloat_empty]
  · rw [if_pos h]
    cases hp : parseFloat row.carbohydrates_100g with
    | none => rfl
    | some q => rfl

theorem metaFat_eq (row : Row) (m : Meta) :
    metaFat row m =
      { m with
        fat := match parseFloat row.fat_100g with
          | some q => some (pyRound q 1)
          | none => m.fat } := by
  unfold metaFat
  by_cases h : row.fat_100g = ""
  · rw [if_neg (by simp [h]), h, parseFloat_empty]
  · rw [if_pos h]
    cases hp : parseFloat row.fat_100g with
    | none => rfl
    | some q => rfl

theorem metaFiber_eq (row : Row) (m : Meta) :
    metaFiber row m =
      { m with
        fiber := match parseFloat row.fiber_100g with
          | some q => some (pyRound q 1)
          | none => m.fiber } := by
  unfold metaFiber
  by_cases h : row.fiber_100g = ""
  · rw [if_neg (by simp [h]), h, parseFloat_empty]
  · rw [if_pos h]
    cases hp : parseFloat row.fiber_100g with
    | none => rfl
    | some q => rfl

theorem metaSodium_eq (row : Row) (m : Meta) :
    metaSodium row m =
      { m with
        sodium := match parseFloat row.sodium_100g with
          | some q => some (pyRound q 3)
          | none => m.sodium } := by
  unfold metaSodium
  by_cases h : row.sodium_100g = ""
  · rw [if_neg (by simp [h]), h, parseFloat_empty]
  · rw [if_pos h]
    cases hp : parseFloat row.sodium_100g with
    | none => rfl
    | some q => rfl

/-! ## Claim theorems -/

/-- Claim C1 (code bug): the claim says single-word keywords are tested
with word-boundary matching, so "rum" must not fire inside "serum"; but
`classify_by_name` tests every keyword with plain substring containment
(`kw in name`), so the single-word rule `(["rum"], "alcohol")` fires on
the name "serum" and the classifier returns "alcohol". -/
theorem C1_single_word_rule_fires_inside_longer_word :
    pyIn "rum" "serum" = true ∧
    (["rum"], "alcohol") ∈ KEYWORD_RULES ∧
    classify_by_name "serum" = some "alcohol" :=
  ⟨by decide, by decide, by decide⟩

/-- Claim C2 (code bug): the claim says a name containing "extra virgin
olive oil" resolves to "oil" because the more specific rule is listed
earlier; in the table the single-word rule `(["olive"], "pantry")` in
fact precedes `(["olive oil"], "oil")`, so both "olive oil" and "extra
virgin olive oil" classify as "pantry" and the "olive oil" rule is
shadowed. -/
theorem C2_compound_oil_rule_shadowed :
    (["olive"], "pantry") ∈ KEYWORD_RULES ∧
    (["olive oil"], "oil") ∈ KEYWORD_RULES ∧
    classify_by_name "olive oil" = some "pantry" ∧
    classify_by_name "extra virgin olive oil" = some "pantry" :=
  ⟨by decide, by decide, by decide, by decide⟩

/-- Claim C4: the ingredient filter returns `false` exactly when the
name is longer than 60 characters, contains a run of 5 or more
consecutive digits, or contains a denylist term; and its result does not
depend on the category or tag arguments (it is a pure function of the
name). -/
theorem C4_ingredient_filter_characterization :
    ∀ name off_cat tags : String,
    (is_culinary_ingredient name off_cat tags = false ↔
      (60 < name.data.length ∨ hasDigitRun name.data = true ∨
        ∃ w, w ∈ skip_words ∧ pyIn w name = true)) ∧
    (∀ off_cat' tags' : String,
      is_culinary_ingredient name off_cat tags =
        is_culinary_ingredient name off_cat' tags') := by
  intro name oc tg
  constructor
  · unfold is_culinary_ingredient
    split_ifs with h1 h2 h3
    · exact iff_of_true rfl (Or.inl h1)
    · exact iff_of_true rfl (Or.inr (Or.inl h2))
    · exact iff_of_true rfl (Or.inr (Or.inr (List.any_eq_true.mp h3)))
    · refine iff_of_false (by simp) ?_
      rintro (h | h | h)
      · exact absurd h h1
      · exact absurd h h2
      · exact absurd (List.any_eq_true.mpr h) h3
  · intro oc' tg'; rfl

/-- Claim C5: the category-field matcher returns "no match" on empty
text; the first rule of the table whose keyword occurs in the text halts
the scan and its target (possibly the "no opinion" sentinel `none`) is
the result, so a "no opinion" match propagates as "no match"; and when
both the name rules and the primary category field yield nothing, the
pipeline's resolution equals the matcher applied to the tags field. -/
theorem C5_category_field_matcher :
    (classify_by_off_category "" = none) ∧
    (∀ (pre post : List (String × Option String)) (kw : String)
        (tgt : Option String) (t : String),
      (∀ p ∈ pre, pyIn p.1 t = false) → pyIn kw t = true →
      findOff (pre ++ (kw, tgt) :: post) t = tgt) ∧
    (∀ t : String, t ≠ "" →
      classify_by_off_category t = findOff OFF_CATEGORY_MAP t) ∧
    (∀ name off_cat tags : String, classify_by_name name = none →
      classify_by_off_category off_cat = none →
      resolveCat name off_cat tags = classify_by_off_category tags) := by
  refine ⟨rfl, findOff_append, ?_, ?_⟩
  · intro t ht
    unfold classify_by_off_category
    rw [if_neg ht]
  · intro name oc tg h1 h2
    unfold resolveCat
    rw [h1, h2]

/-- Claim C5 witness: concrete instances of the matcher clauses — a
"no opinion" rule halting the scan and propagating as `none`, and the
pipeline falling through to the tags field. -/
theorem C5_category_field_matcher_witness :
    findOff [("z", some "produce"), ("snack", none)] "snack" = none ∧
    resolveCat "zzqq" "snack" "milk" = classify_by_off_category "milk" :=
  ⟨C5_category_field_matcher.2.1 [("z", some "produce")] [] "snack" none
      "snack" (by decide) (by decide),
   C5_category_field_matcher.2.2.2 "zzqq" "snack" "milk" (by decide) (by decide)⟩

/-- Claim C6: a row whose normalized name is empty or shorter than 2
characters is counted as skipped and the state is otherwise unchanged —
in particular neither output mapping gains an entry, whatever the other
fields of the row contain. -/
theorem C6_short_name_filtered_first :
    ∀ (s : BState) (row : Row),
    (pyStrip (pyLower row.product_name) = "" ∨
     (pyStrip (pyLower row.product_name)).data.length < 2) →
    processRow s row = { s with skipped := s.skipped + 1 } := by
  intro s row h
  unfold processRow
  rw [if_pos h]

/-- Claim C6 witness: the empty name with a primary category ("dairy")
that would match a category-field rule is still skipped. -/
theorem C6_short_name_filtered_first_witness :
    processRow (initState true) { product_name := "", main_category_en := "dairy" } =
      { initState true with skipped := (initState true).skipped + 1 } :=
  C6_short_name_filtered_first (initState true)
    { product_name := "", main_category_en := "dairy" } (by decide)

/-- Claim C10: the three rules whose keywords start with `]` can only
match names containing `]`, so on ordinary names they never fire; in
particular "chicken broth" falls through to the later single-word
"broth" rule and classifies as "beverage", not "pantry". -/
theorem C10_bracket_rules_unreachable :
    (∀ name : String, ']' ∉ name.data →
      ruleMatch name ["]chicken broth"] = false ∧
      ruleMatch name ["]beef broth"] = false ∧
      ruleMatch name ["]vegetable broth"] = false) ∧
    classify_by_name "chicken broth" = some "beverage" := by
  constructor
  · intro name hn
    refine ⟨?_, ?_, ?_⟩ <;>
      · simp only [ruleMatch, List.all_cons, List.all_nil, Bool.and_true]
        exact pyIn_false_of_not_mem (by decide) hn
  · decide

/-- Claim C10 witness: the name "chicken broth" contains no `]`, so the
`]`-prefixed broth rules do not fire on it. -/
theorem C10_bracket_rules_unreachable_witness :
    ruleMatch "chicken broth" ["]chicken broth"] = false ∧
    ruleMatch "chicken broth" ["]beef broth"] = false ∧
    ruleMatch "chicken broth" ["]vegetable broth"] = false :=
  C10_bracket_rules_unreachable.1 "chicken broth" (by decide)

/-- Claim C3: no entry of the output mapping ever carries the unknown
ordinal — and at the step level, a resolution whose category looks up to
the unknown ordinal only increments the unclassified counter, leaving
both mappings untouched. -/
theorem C3_unknown_never_in_output :
    (∀ (rows : List Row) (g : Bool) (p : String × Nat),
      p ∈ (build_database rows g).category_db → p.2 ≠ UNKNOWN) ∧
    (∀ (s : BState) (row : Row) (name c : String), catGet c = UNKNOWN →
      finishRow s row name (some c) =
        { s with unclassified := s.unclassified + 1 }) := by
  constructor
  · have step : ∀ (s : BState) (row : Row),
        (∀ p ∈ s.category_db, p.2 ≠ UNKNOWN) →
        ∀ p ∈ (processRow s row).category_db, p.2 ≠ UNKNOWN := by
      intro s row hs p hp
      rw [processRow_category_db] at hp
      cases hro : rowOutcome row with
      | none => rw [hro] at hp; exact hs p hp
      | some q =>
        rw [hro] at hp
        dsimp only at hp
        obtain ⟨n, v⟩ := q
        rcases mem_dictInsert hp with rfl | hm
        · exact rowOutcome_ne_unknown hro
        · exact hs p hm
    have main : ∀ (rows : List Row) (s : BState),
        (∀ p ∈ s.category_db, p.2 ≠ UNKNOWN) →
        ∀ p ∈ (rows.foldl processRow s).category_db, p.2 ≠ UNKNOWN := by
      intro rows
      induction rows with
      | nil => intro s hs; exact hs
      | cons r rs ih => intro s hs; exact ih _ (step s r hs)
    intro rows g p hp
    refine main rows _ ?_ p hp
    intro q hq
    simp [initState] at hq
  · intro s row name c hu
    unfold finishRow
    dsimp only
    rw [if_pos hu]

/-- Claim C3 witness: the classified entry for "cola" does not carry the
unknown ordinal, and a hypothetical resolution to "unknown" itself is
routed to the unclassified counter. -/
theorem C3_unknown_never_in_output_witness :
    (("cola", 19) : String × Nat).2 ≠ UNKNOWN ∧
    finishRow (initState false) {} "x" (some "unknown") =
      { initState false with unclassified := (initState false).unclassified + 1 } :=
  ⟨C3_unknown_never_in_output.1 [{ product_name := "Cola" }] false
      ("cola", 19) (by decide),
   C3_unknown_never_in_output.2 (initState false) {} "x" "unknown" (by decide)⟩

/-- Lookup of a name is unchanged by processing rows none of which
classifies under that name. -/
theorem foldl_lookup_preserved {n : String} :
    ∀ (rows : List Row) (s : BState),
      (∀ r ∈ rows, ∀ v', rowOutcome r ≠ some (n, v')) →
      List.lookup n (rows.foldl processRow s).category_db =
        List.lookup n s.category_db := by
  intro rows
  induction rows with
  | nil => intro s _; rfl
  | cons r rs ih =>
    intro s hr
    rw [List.foldl_cons,
      ih (processRow s r) (fun q hq v' => hr q (List.mem_cons_of_mem _ hq) v'),
      processRow_category_db]
    cases hro : rowOutcome r with
    | none => rfl
    | some q =>
      obtain ⟨n', v'⟩ := q
      dsimp only
      have hne : n ≠ n' := by
        intro he
        exact hr r (List.mem_cons_self _ _) v' (by rw [hro, he])
      exact lookup_dictInsert_ne _ _ hne

/-- Claim C8: the keys of the output mapping are unique, and when a row
classifies under a name and no later row classifies under the same name,
the final mapping holds that row's ordinal — so among duplicate names the
last classified row wins, and duplicates never abort the fold. -/
theorem C8_last_write_wins :
    (∀ (rows : List Row) (g : Bool),
      (((build_database rows g).category_db).map Prod.fst).Nodup) ∧
    (∀ (g : Bool) (rows₁ : List Row) (row : Row) (rows₂ : List Row)
        (n : String) (v : Nat),
      rowOutcome row = some (n, v) →
      (∀ r ∈ rows₂, ∀ v', rowOutcome r ≠ some (n, v')) →
      List.lookup n (build_database (rows₁ ++ row :: rows₂) g).category_db =
        some v) := by
  constructor
  · have step : ∀ (s : BState) (row : Row),
        ((s.category_db).map Prod.fst).Nodup →
        (((processRow s row).category_db).map Prod.fst).Nodup := by
      intro s row hs
      rw [processRow_category_db]
      cases hro : rowOutcome row with
      | none => exact hs
      | some q =>
        dsimp only
        exact dictInsert_keys_nodup hs q.1 q.2
    have main : ∀ (rows : List Row) (s : BState),
        ((s.category_db).map Prod.fst).Nodup →
        (((rows.foldl processRow s).category_db).map Prod.fst).Nodup := by
      intro rows
      induction rows with
      | nil => intro s hs; exact hs
      | cons r rs ih => intro s hs; exact ih _ (step s r hs)
    intro rows g
    exact main rows _ (by simp [initState])
  · intro g rows₁ row rows₂ n v h1 h2
    unfold build_database
    rw [List.foldl_append, List.foldl_cons, foldl_lookup_preserved rows₂ _ h2,
      processRow_category_db, h1]
    dsimp only
    exact lookup_dictInsert_self _ n v

/-- Claim C8 witness: two rows sharing the name "zzqq" whose category
fields resolve differently ("cheese" then "milk"); the final mapping
holds the later row's ordinal (dairy = 6). -/
theorem C8_last_write_wins_witness :
    List.lookup "zzqq" (build_database
      ([{ product_name := "zzqq", main_category_en := "Cheese" }] ++
        { product_name := "zzqq", main_category_en := "Milk" } :: [])
      false).category_db = some 6 :=
  C8_last_write_wins.2 false
    [{ product_name := "zzqq", main_category_en := "Cheese" }]
    { product_name := "zzqq", main_category_en := "Milk" } [] "zzqq" 6
    (by decide) (fun r hr => absurd hr (List.not_mem_nil r))

/-- Claim C9: every name-rule target is a registry category other than
"unknown", every category-field target that asserts a category asserts a
registry category other than "unknown", and consequently any resolved
category of the pipeline looks up to an ordinal different from the
unknown ordinal — the unknown-fallback branch of `build_database` is
unreachable. -/
theorem C9_rule_targets_valid :
    (∀ p ∈ KEYWORD_RULES, p.2 ∈ CATEGORIES ∧ p.2 ≠ "unknown") ∧
    (∀ p ∈ OFF_CATEGORY_MAP, ∀ c : String, p.2 = some c →
      c ∈ CATEGORIES ∧ c ≠ "unknown") ∧
    (∀ (name off_cat tags c : String),
      resolveCat name off_cat tags = some c → catGet c ≠ UNKNOWN) := by
  have h1 : ∀ p ∈ KEYWORD_RULES, p.2 ∈ CATEGORIES ∧ p.2 ≠ "unknown" := by
    decide
  have h2' : ∀ p ∈ OFF_CATEGORY_MAP,
      p.2.getD "produce" ∈ CATEGORIES ∧ p.2.getD "produce" ≠ "unknown" := by
    decide
  have h2 : ∀ p ∈ OFF_CATEGORY_MAP, ∀ c : String, p.2 = some c →
      c ∈ CATEGORIES ∧ c ≠ "unknown" := by
    intro p hp c hc
    have := h2' p hp
    rw [hc] at this
    simpa using this
  have h3 : ∀ c ∈ CATEGORIES, c ≠ "unknown" → catGet c ≠ UNKNOWN := by decide
  refine ⟨h1, h2, ?_⟩
  intro name oc tg c h
  unfold resolveCat at h
  cases hn : classify_by_name name with
  | some c' =>
    rw [hn] at h
    dsimp only at h
    rw [Option.some_inj] at h
    obtain ⟨kws, hmem⟩ := classify_by_name_mem (h ▸ hn)
    have hh := h1 (kws, c) hmem
    exact h3 c hh.1 hh.2
  | none =>
    rw [hn] at h
    dsimp only at h
    cases ho : classify_by_off_category oc with
    | some c' =>
      rw [ho] at h
      dsimp only at h
      rw [Option.some_inj] at h
      obtain ⟨kw, hmem⟩ := classify_by_off_category_mem (h ▸ ho)
      have hh := h2 (kw, some c) hmem c rfl
      exact h3 c hh.1 hh.2
    | none =>
      rw [ho] at h
      dsimp only at h
      obtain ⟨kw, hmem⟩ := classify_by_off_category_mem h
      have hh := h2 (kw, some c) hmem c rfl
      exact h3 c hh.1 hh.2

/-- Claim C9 witness: a name-rule target, a category-field target and a
resolved category, all valid and distinct from the unknown ordinal. -/
theorem C9_rule_targets_valid_witness :
    ("pantry" ∈ CATEGORIES ∧ "pantry" ≠ "unknown") ∧
    ("grain" ∈ CATEGORIES ∧ "grain" ≠ "unknown") ∧
    catGet "pop" ≠ UNKNOWN :=
  ⟨C9_rule_targets_valid.1 (["stock"], "pantry") (by decide),
   C9_rule_targets_valid.2.1 ("breakfast cereal", some "grain") (by decide)
     "grain" rfl,
   C9_rule_targets_valid.2.2 "cola" "" "" "pop" (by decide)⟩

/-- Claim C7: in the metadata record of a classified row the category
ordinal is stored as given; each numeric nutrition field is parsed
independently of the others — a malformed value yields an absent field
(`none`), a parsed value is stored rounded (whole-number energy,
one-decimal protein/carbohydrate/fat/fiber, three-decimal sodium); when
the "vegan" label is present only the vegan flag is set; and the record
is inserted into the metadata mapping whenever the row classifies. -/
theorem C7_metadata_best_effort :
    ∀ (row : Row) (ci : Nat),
    (buildMeta row ci).cat = ci ∧
    (buildMeta row ci).kcal =
      (parseFloat row.energy_kcal_100g).map (fun q => pyRound q 0) ∧
    (buildMeta row ci).protein =
      (parseFloat row.proteins_100g).map (fun q => pyRound q 1) ∧
    (buildMeta row ci).carbs =
      (parseFloat row.carbohydrates_100g).map (fun q => pyRound q 1) ∧
    (buildMeta row ci).fat =
      (parseFloat row.fat_100g).map (fun q => pyRound q 1) ∧
    (buildMeta row ci).fiber =
      (parseFloat row.fiber_100g).map (fun q => pyRound q 1) ∧
    (buildMeta row ci).sodium =
      (parseFloat row.sodium_100g).map (fun q => pyRound q 3) ∧
    (pyIn "vegan" (pyLower row.labels_en) = true →
      (buildMeta row ci).vegan = some true ∧
      (buildMeta row ci).vegetarian = none) ∧
    (∀ (s : BState) (name c : String) (md : List (String × Meta)),
      s.meta_db = some md → catGet c ≠ UNKNOWN →
      (finishRow s row name (some c)).meta_db =
        some (dictInsert md name (buildMeta row (catGet c)))) := by
  intro row ci
  refine ⟨?_, ?_, ?_, ?_, ?_, ?_, ?_, ?_, ?_⟩
  · simp only [buildMeta, metaSodium_eq, metaFiber_eq, metaFat_eq, metaCarbs_eq,
      metaProtein_eq, metaKcal_eq, metaAllergens_eq, metaLabels_eq]
  · simp only [buildMeta, metaSodium_eq, metaFiber_eq, metaFat_eq, metaCarbs_eq,
      metaProtein_eq, metaKcal_eq, metaAllergens_eq, metaLabels_eq]
    cases hp : parseFloat row.energy_kcal_100g <;> simp [hp]
  · simp only [buildMeta, metaSodium_eq, metaFiber_eq, metaFat_eq, metaCarbs_eq,
      metaProtein_eq, metaKcal_eq, metaAllergens_eq, metaLabels_eq]
    cases hp : parseFloat row.proteins_100g <;> simp [hp]
  · simp only [buildMeta, metaSodium_eq, metaFiber_eq, metaFat_eq, metaCarbs_eq,
      metaProtein_eq, metaKcal_eq, metaAllergens_eq, metaLabels_eq]
    cases hp : parseFloat row.carbohydrates_100g <;> simp [hp]
  · simp only [buildMeta, metaSodium_eq, metaFiber_eq, metaFat_eq, metaCarbs_eq,
      metaProtein_eq, metaKcal_eq, metaAllergens_eq, metaLabels_eq]
    cases hp : parseFloat row.fat_100g <;> simp [hp]
  · simp only [buildMeta, metaSodium_eq, metaFiber_eq, metaFat_eq, metaCarbs_eq,
      metaProtein_eq, metaKcal_eq, metaAllergens_eq, metaLabels_eq]
    cases hp : parseFloat row.fiber_100g <;> simp [hp]
  · simp only [buildMeta, metaSodium_eq, metaFiber_eq, metaFat_eq, metaCarbs_eq,
      metaProtein_eq, metaKcal_eq, metaAllergens_eq, metaLabels_eq]
    cases hp : parseFloat row.sodium_100g <;> simp [hp]
  · intro hv
    simp only [buildMeta, metaSodium_eq, metaFiber_eq, metaFat_eq, metaCarbs_eq,
      metaProtein_eq, metaKcal_eq, metaAllergens_eq, metaLabels_eq]
    constructor <;> simp [hv]
  · intro s name c md hmd hu
    unfold finishRow
    dsimp only
    rw [if_neg hu, hmd]

/-- Claim C7 witness: a row labelled both vegan and vegetarian gets only
the vegan flag, and its metadata record is inserted into the metadata
mapping when the row classifies. -/
theorem C7_metadata_best_effort_witness :
    ((buildMeta { labels_en := "en:Vegan, en:Vegetarian" } 5).vegan = some true ∧
     (buildMeta { labels_en := "en:Vegan, en:Vegetarian" } 5).vegetarian = none) ∧
    (finishRow (initState true) { labels_en := "en:Vegan, en:Vegetarian" }
        "tofu" (some "dairy")).meta_db =
      some (dictInsert [] "tofu"
        (buildMeta { labels_en := "en:Vegan, en:Vegetarian" } (catGet "dairy"))) :=
  ⟨(C7_metadata_best_effort { labels_en := "en:Vegan, en:Vegetarian" } 5).2.2.2.2.2.2.2.1
      (by decide),
   (C7_metadata_best_effort { labels_en := "en:Vegan, en:Vegetarian" } 5).2.2.2.2.2.2.2.2
      (initState true) "tofu" "dairy" [] rfl (by decide)⟩

